import Mathlib

/-!
Verification of the chat/session façade of the course-materials RAG system
(`backend/app.py`) against its natural-language specification.

The HTTP handlers are embedded shallowly: the session store
(`rag_system.session_manager.sessions`, a Python dict from session id to message
list) becomes an insertion-ordered association list, handlers become total
functions returning `Except` (an `.error` models a raised `HTTPException`),
and the opaque RAG core (`rag_system.query`, `create_session`,
`add_course_folder`) is passed in as a function parameter.  Python string
primitives used by the handlers (`split`, `int`, slicing, `len`, truthiness)
are modelled at the code-point level.
-/

namespace RagChat

instance {ε α : Type} [DecidableEq ε] [DecidableEq α] : DecidableEq (Except ε α) := fun a b =>
  match a, b with
  | .ok x, .ok y =>
    if h : x = y then isTrue (by rw [h]) else isFalse (by intro hc; cases hc; exact h rfl)
  | .error x, .error y =>
    if h : x = y then isTrue (by rw [h]) else isFalse (by intro hc; cases hc; exact h rfl)
  | .ok _, .error _ => isFalse (by intro hc; cases hc)
  | .error _, .ok _ => isFalse (by intro hc; cases hc)

/-- A chat message as stored by the session manager: a role tag and text content. -/
structure Message where
  role : String
  content : String
deriving DecidableEq, Repr

/-- Response item of `GET /api/chat-history` (`models.ChatHistoryItem`). -/
structure ChatHistoryItem where
  session_id : String
  title : String
  message_count : Nat
deriving DecidableEq, Repr

/-- The session store `rag_system.session_manager.sessions`: a Python dict from
session id to its ordered message list, as an insertion-ordered association list. -/
abbrev Sessions := List (String × List Message)

/-- Python `sessions.get(sid)`: the message list of the first entry with key `sid`. -/
def dictGet (sessions : Sessions) (sid : String) : Option (List Message) :=
  (sessions.find? (fun p => p.1 == sid)).map Prod.snd

/-- Python `all_sessions.keys()`: the keys of the session dict, in insertion order. -/
def sessionIds (sessions : Sessions) : List String :=
  sessions.map Prod.fst

/-- Python `s.split(sep)` for a one-character separator, over the code-point
list: split at every occurrence of `sep`, keeping empty segments. -/
def splitChar (sep : Char) : List Char → List (List Char)
  | [] => [[]]
  | c :: cs =>
    if c = sep then [] :: splitChar sep cs
    else
      match splitChar sep cs with
      | [] => [[c]]
      | seg :: segs => (c :: seg) :: segs

/-- Accumulate the value of a decimal digit run; `none` on a non-digit. -/
def decDigitsAux : List Char → Nat → Option Nat
  | [], acc => some acc
  | c :: cs, acc =>
    if c.isDigit then decDigitsAux cs (acc * 10 + (c.toNat - 48)) else none

/-- Python `int(s)` on a code-point list: an optional sign followed by a
nonempty digit run (the grouping-underscore and whitespace relaxations of
CPython cannot occur in the session-id segments this is applied to). -/
def pyInt : List Char → Option Int
  | [] => none
  | '-' :: rest =>
    if rest.isEmpty then none else (decDigitsAux rest 0).map (fun n => -(n : Int))
  | '+' :: rest =>
    if rest.isEmpty then none else (decDigitsAux rest 0).map (fun n => (n : Int))
  | cs => (decDigitsAux cs 0).map (fun n => (n : Int))

/-- The key `int(x.split('_')[1])` from `get_chat_history`; `none` models the exception
raised on a malformed session id. -/
def sessionKey (sid : String) : Option Int :=
  ((splitChar '_' sid.data)[1]?).bind pyInt

/-- Python `s[:n]`: the first `n` code points. -/
def pySlice (s : String) (n : Nat) : String :=
  ⟨s.data.take n⟩

/-- Comparison realised by `sorted(..., key=..., reverse=True)`: descending on
the precomputed key, earlier element first on ties (Python's sort is stable,
as is the insertion sort used here). -/
def keyGE (a b : Int × String) : Prop := b.1 ≤ a.1

instance : DecidableRel keyGE := fun a b => inferInstanceAs (Decidable (b.1 ≤ a.1))

instance : IsTotal (Int × String) keyGE := ⟨fun a b => Int.le_total b.1 a.1⟩

instance : IsTrans (Int × String) keyGE := ⟨fun _ _ _ h1 h2 => le_trans h2 h1⟩

/-- The call `sorted(all_sessions.keys(), key=lambda x: int(x.split('_')[1]), reverse=True)`:
compute every key (one failure aborts the whole call, hence `Option`), then sort
stably by descending key. -/
def sortedSessionIds (ids : List String) : Option (List String) :=
  (ids.mapM (fun sid => (sessionKey sid).map (fun k => (k, sid)))).map
    (fun keyed => (keyed.insertionSort keyGE).map Prod.snd)

/-- One iteration of the listing loop of `get_chat_history`: skip an empty
session; find the first message with role `"user"`; skip when there is none or
its content is empty (Python truthiness of `first_user_msg`); otherwise build
the item, truncating the title to 50 characters and appending `"..."` when the
message is longer. -/
def summarizeSession (sid : String) (messages : List Message) : Option ChatHistoryItem :=
  if messages.isEmpty then none
  else
    match (messages.find? (fun m => m.role == "user")).map Message.content with
    | none => none
    | some s =>
      if s.data.isEmpty then none
      else
        let title := pySlice s 50
        some ⟨sid, if s.length > 50 then title ++ "..." else title, messages.length⟩

/-- Handler `GET /api/chat-history` (`get_chat_history`): sort the session ids by
numeric suffix descending, keep the first 10, summarize each; a key-extraction
failure is caught by the handler's `except` and becomes HTTP 500. -/
def getChatHistory (sessions : Sessions) : Except String (List ChatHistoryItem) :=
  match sortedSessionIds (sessionIds sessions) with
  | none => .error "invalid session id"
  | some sorted =>
    .ok ((sorted.take 10).filterMap
      (fun sid => summarizeSession sid ((dictGet sessions sid).getD [])))

/-- Response of `GET /api/chat/{session_id}`: the session id and the transcript,
each message reduced to `(role, content)`. -/
structure Conversation where
  session_id : String
  messages : List (String × String)
deriving DecidableEq, Repr

/-- An HTTP failure raised by a handler: status code and detail string. -/
structure HttpError where
  status : Nat
  detail : String
deriving DecidableEq, Repr

/-- Handler `GET /api/chat/{session_id}` (`get_chat_conversation`): 404 when the id is
not a key of the session dict, otherwise the full transcript via
`sessions.get(session_id, [])`, in stored order. -/
def getChatConversation (sessions : Sessions) (session_id : String) :
    Except HttpError Conversation :=
  if (sessionIds sessions).contains session_id then
    .ok ⟨session_id, ((dictGet sessions session_id).getD []).map
      (fun m => (m.role, m.content))⟩
  else
    .error ⟨404, "Chat not found"⟩

/-- A source citation attached to an answer.  Modelled from the spec: the class
lives in `models.py`, outside the visible source; the spec gives course title,
lesson/section label and an optional locator. -/
structure SourceCitation where
  course_title : String
  lesson : String
  locator : Option String
deriving DecidableEq, Repr

/-- Failures the RAG core can raise into the `query_documents` handler, per the
spec's error taxonomy (§7). -/
inductive CoreError where
  | notFound : String → CoreError
  | validation : String → CoreError
  | backend : String → CoreError
  | other : String → CoreError
deriving DecidableEq, Repr

/-- Python `str(e)` for a core failure: the detail string the handler reports. -/
def CoreError.message : CoreError → String
  | .notFound m => m
  | .validation m => m
  | .backend m => m
  | .other m => m

/-- Response of `POST /api/query`. -/
structure QueryResponse where
  answer : String
  sources : List SourceCitation
  session_id : String
deriving DecidableEq, Repr

/-- Python truthiness of the optional `request.session_id`: falsy exactly when
absent (`None`) or the empty string. -/
def pyFalsy : Option String → Bool
  | none => true
  | some s => s.data.isEmpty

/-- Handler `POST /api/query` (`query_documents`): when `request.session_id` is falsy a
fresh id is allocated (`fresh` stands for the value
`rag_system.session_manager.create_session()` returns); the core call
`rag_system.query` is the parameter `ragQuery`; every exception is caught and
re-raised as HTTP 500 with `str(e)` as detail. -/
def queryDocuments (fresh : String)
    (ragQuery : String → String → Except CoreError (String × List SourceCitation))
    (query : String) (session_id? : Option String) :
    Except HttpError QueryResponse :=
  let session_id := if pyFalsy session_id? then fresh else session_id?.getD ""
  match ragQuery query session_id with
  | .ok (answer, sources) => .ok ⟨answer, sources, session_id⟩
  | .error e => .error ⟨500, e.message⟩

/-- Handler `startup_event`: when the docs directory exists, run the ingestion call
(the parameter `addCourseFolder` stands for `rag_system.add_course_folder`)
inside `try`/`except`; a loader failure only prints an error line.  The outer
`Except` carries any exception that would escape the handler: the handler never
lets one escape, so the result is always `.ok` with the printed lines. -/
def startupEvent (docsPathExists : Bool)
    (addCourseFolder : Unit → Except String (Nat × Nat)) :
    Except String (List String) :=
  if docsPathExists then
    match addCourseFolder () with
    | .ok (courses, chunks) =>
      .ok ["Loading initial documents...",
           "Loaded " ++ toString courses ++ " courses with " ++ toString chunks ++ " chunks"]
    | .error e =>
      .ok ["Loading initial documents...", "Error loading documents: " ++ e]
  else
    .ok []

/-- Modelled from the spec: the Session Store's `append(session_id, role,
content)` (§4.4), absent from the visible source.  Appends a message to the
session, creating the session when the id is unknown (create-if-absent). -/
def appendMessage (sessions : Sessions) (sid role content : String) : Sessions :=
  if (sessionIds sessions).contains sid then
    sessions.map (fun p => if p.1 == sid then (p.1, p.2 ++ [⟨role, content⟩]) else p)
  else
    sessions ++ [(sid, [⟨role, content⟩])]

/-- The number of messages stored for a session. -/
def messageCount (sessions : Sessions) (sid : String) : Nat :=
  ((dictGet sessions sid).getD []).length

/-- Modelled from the spec: the Answer Synthesizer's `answer(query_text,
session_id)` (§4.5), absent from the visible source.  Fetches bounded history,
retrieves chunks, invokes the generation backend, and only after generation
succeeds appends the user query and the produced answer to the store, in that
order; on generation failure the store is returned unchanged. -/
def answerSynthesize
    (generate : List Message → List (String × String) → String → Except String String)
    (retrieve : String → List (String × String))
    (historyOf : Sessions → String → List Message)
    (sessions : Sessions) (query sid : String) :
    Except String String × Sessions :=
  let history := historyOf sessions sid
  let chunks := retrieve query
  match generate history chunks query with
  | .error e => (.error e, sessions)
  | .ok text =>
    (.ok text, appendMessage (appendMessage sessions sid "user" query) sid "assistant" text)

/-- Key order carried to session ids: whenever both ids have numeric keys, the
earlier one's key is at least the later one's. -/
def sidKeyGE (a b : String) : Prop :=
  ∀ ka kb, sessionKey a = some ka → sessionKey b = some kb → kb ≤ ka

/-- Replace the stored message list of session `sid`, keeping every key and
the key order untouched: used to express that the listing's selection window
depends only on the stored session ids, not on any session's contents. -/
def setMessages (sessions : Sessions) (sid : String) (msgs : List Message) : Sessions :=
  sessions.map (fun p => if p.1 == sid then (p.1, msgs) else p)

/-- Concrete store refuting the claim that the 10-most-recent window is taken
over non-empty sessions: one non-empty session `s_1` and ten empty sessions
with larger numeric suffixes. -/
def windowStore : Sessions :=
  ("s_1", [⟨"user", "hello"⟩]) ::
    (List.range 10).map (fun i => ("s_" ++ toString (i + 2), []))

theorem data_isEmpty_iff (s : String) : s.data.isEmpty = true ↔ s = "" := by
  cases s with
  | mk d =>
    simp only [List.isEmpty_iff]
    constructor
    · intro h; rw [h]
    · intro h; exact congrArg String.data h

theorem mem_sessionIds_iff {sessions : Sessions} {sid : String} :
    sid ∈ sessionIds sessions ↔ ∃ msgs, (sid, msgs) ∈ sessions := by
  unfold sessionIds
  rw [List.mem_map]
  constructor
  · rintro ⟨⟨a, b⟩, hmem, rfl⟩; exact ⟨b, hmem⟩
  · rintro ⟨msgs, hmem⟩; exact ⟨(sid, msgs), hmem, rfl⟩

theorem dictGet_isSome_iff {sessions : Sessions} {sid : String} :
    (dictGet sessions sid).isSome = true ↔ sid ∈ sessionIds sessions := by
  unfold dictGet
  rw [Option.isSome_map', List.find?_isSome, mem_sessionIds_iff]
  constructor
  · rintro ⟨⟨a, b⟩, hmem, hbeq⟩
    simp only [beq_iff_eq] at hbeq
    cases hbeq
    exact ⟨b, hmem⟩
  · rintro ⟨msgs, hmem⟩
    exact ⟨(sid, msgs), hmem, by simp⟩

theorem contains_sessionIds_iff {sessions : Sessions} {sid : String} :
    (sessionIds sessions).contains sid = true ↔ sid ∈ sessionIds sessions :=
  List.elem_iff

theorem dictGet_none_iff {sessions : Sessions} {sid : String} :
    dictGet sessions sid = none ↔ sid ∉ sessionIds sessions := by
  rw [← dictGet_isSome_iff, ← Option.not_isSome_iff_eq_none]

theorem getChatConversation_404 (sessions : Sessions) (sid : String)
    (hnone : dictGet sessions sid = none) :
    getChatConversation sessions sid = .error ⟨404, "Chat not found"⟩ := by
  unfold getChatConversation
  rw [if_neg]
  intro hc
  exact (dictGet_none_iff.mp hnone) (contains_sessionIds_iff.mp hc)

theorem getChatConversation_found (sessions : Sessions) (sid : String)
    (msgs : List Message) (hsome : dictGet sessions sid = some msgs) :
    getChatConversation sessions sid =
      .ok ⟨sid, msgs.map (fun m => (m.role, m.content))⟩ := by
  have hc : (sessionIds sessions).contains sid = true := by
    apply contains_sessionIds_iff.mpr
    rw [← dictGet_isSome_iff, hsome]
    rfl
  unfold getChatConversation
  rw [if_pos hc, hsome]
  rfl

/-- C3: `GET /api/chat/{session_id}` fails with 404 "Chat not found" when the
session id is unknown to the session store, and otherwise returns the session
id together with the session's full message list in stored order, each message
reduced to its role and content. -/
theorem get_chat_conversation_correct (sessions : Sessions) (sid : String) :
    (dictGet sessions sid = none →
      getChatConversation sessions sid = .error ⟨404, "Chat not found"⟩)
    ∧ (∀ msgs, dictGet sessions sid = some msgs →
      getChatConversation sessions sid =
        .ok ⟨sid, msgs.map (fun m => (m.role, m.content))⟩) :=
  ⟨getChatConversation_404 sessions sid,
   fun msgs hsome => getChatConversation_found sessions sid msgs hsome⟩

/-- Witness for `get_chat_conversation_correct`: a one-session store, with an
unknown id hitting the 404 branch and the known id returning its transcript. -/
theorem get_chat_conversation_correct_witness :
    getChatConversation [("s_1", [⟨"user", "hi"⟩])] "s_2" = .error ⟨404, "Chat not found"⟩
    ∧ getChatConversation [("s_1", [⟨"user", "hi"⟩])] "s_1" =
        .ok ⟨"s_1", [("user", "hi")]⟩ :=
  ⟨(get_chat_conversation_correct [("s_1", [⟨"user", "hi"⟩])] "s_2").1 (by decide),
   (get_chat_conversation_correct [("s_1", [⟨"user", "hi"⟩])] "s_1").2
     [⟨"user", "hi"⟩] (by decide)⟩

/-- C4: `POST /api/query` allocates a fresh session id via the session store
when the request omits `session_id`, and the response carries the answer, the
sources, and the session id that was used — the caller-supplied one when
present (non-empty), otherwise the freshly allocated one. -/
theorem query_documents_session (fresh q ans : String) (srcs : List SourceCitation)
    (ragQuery : String → String → Except CoreError (String × List SourceCitation))
    (hfresh : ragQuery q fresh = .ok (ans, srcs)) :
    queryDocuments fresh ragQuery q none = .ok ⟨ans, srcs, fresh⟩
    ∧ ∀ s, s ≠ "" → ragQuery q s = .ok (ans, srcs) →
        queryDocuments fresh ragQuery q (some s) = .ok ⟨ans, srcs, s⟩ := by
  constructor
  · unfold queryDocuments
    simp only [pyFalsy, if_pos, hfresh]
  · intro s hs hok
    unfold queryDocuments
    have hfalse : s.data.isEmpty = false := by
      rw [Bool.eq_false_iff]
      intro hc
      exact hs ((data_isEmpty_iff s).mp hc)
    simp only [pyFalsy, hfalse, Bool.false_eq_true, if_false, Option.getD_some, hok]

/-- Witness for `query_documents_session`: a concrete core returning a fixed
answer, exercised with an absent and with a supplied session id. -/
theorem query_documents_session_witness :
    queryDocuments "session_0" (fun _ _ => .ok ("ans", [])) "q" none =
      .ok ⟨"ans", [], "session_0"⟩
    ∧ queryDocuments "session_0" (fun _ _ => .ok ("ans", [])) "q" (some "session_7") =
      .ok ⟨"ans", [], "session_7"⟩ :=
  ⟨(query_documents_session "session_0" "q" "ans" [] (fun _ _ => .ok ("ans", [])) rfl).1,
   (query_documents_session "session_0" "q" "ans" [] (fun _ _ => .ok ("ans", [])) rfl).2
     "session_7" (by decide) rfl⟩

/-- C9: a `POST /api/query` request whose `session_id` is the empty string is
handled exactly like one with no `session_id`: the handler behaves identically
for every core behavior, and on success the returned session id is the freshly
allocated one, never the empty string. -/
theorem query_documents_empty_session_id (fresh q : String)
    (ragQuery : String → String → Except CoreError (String × List SourceCitation)) :
    queryDocuments fresh ragQuery q (some "") = queryDocuments fresh ragQuery q none
    ∧ (∀ r, queryDocuments fresh ragQuery q (some "") = .ok r → r.session_id = fresh) := by
  refine ⟨rfl, ?_⟩
  intro r hr
  unfold queryDocuments at hr
  simp only [pyFalsy, List.isEmpty_nil, if_pos] at hr
  revert hr
  cases ragQuery q fresh with
  | ok p => intro hr; cases hr; rfl
  | error e => intro hr; cases hr

/-- Witness for `query_documents_empty_session_id`: concrete core, the empty
string request equals the absent-id request and returns the fresh id. -/
theorem query_documents_empty_session_id_witness :
    (queryDocuments "session_3" (fun _ _ => .ok ("a", [])) "q" (some "") =
      queryDocuments "session_3" (fun _ _ => .ok ("a", [])) "q" none)
    ∧ (⟨"a", [], "session_3"⟩ : QueryResponse).session_id = "session_3" :=
  ⟨(query_documents_empty_session_id "session_3" "q" (fun _ _ => .ok ("a", []))).1,
   (query_documents_empty_session_id "session_3" "q" (fun _ _ => .ok ("a", []))).2
     ⟨"a", [], "session_3"⟩ (by decide)⟩

/-- C6 counterexample: a NotFound raised inside the query path IS collapsed
into the generic failure signal — the handler's catch-all maps it to status
500, the same status any other core failure receives, refuting the claim that
NotFound in the query path stays distinguishable by status. -/
theorem query_notfound_collapsed_counterexample :
    queryDocuments "session_1" (fun _ _ => .error (.notFound "Chat not found")) "q" none =
      .error ⟨500, "Chat not found"⟩
    ∧ queryDocuments "session_1" (fun _ _ => .error (.other "boom")) "q" none =
      .error ⟨500, "boom"⟩
    ∧ (queryDocuments "session_1" (fun _ _ => .error (.notFound "Chat not found"))
        "q" none).toOption = none := by
  refine ⟨rfl, rfl, rfl⟩

/-- C6 amended: NotFound surfaces distinctly (status 404, different from the
generic 500) only on the transcript endpoint; in the query path every core
failure — NotFound, ValidationError, backend or other — is mapped by the
catch-all to status 500, with only the detail string carrying `str(e)`. -/
theorem error_propagation_amended (sessions : Sessions) (sid : String)
    (hmiss : dictGet sessions sid = none) :
    getChatConversation sessions sid = .error ⟨404, "Chat not found"⟩
    ∧ (404 : Nat) ≠ 500
    ∧ (∀ (fresh q : String) (e : CoreError)
        (ragQuery : String → String → Except CoreError (String × List SourceCitation)),
        ragQuery q fresh = .error e →
        queryDocuments fresh ragQuery q none = .error ⟨500, e.message⟩) := by
  refine ⟨getChatConversation_404 sessions sid hmiss, by decide, ?_⟩
  intro fresh q e ragQuery herr
  unfold queryDocuments
  simp only [pyFalsy, if_pos, herr]

/-- Witness for `error_propagation_amended`: empty store, any id is unknown;
a NotFound-raising core in the query path yields status 500. -/
theorem error_propagation_amended_witness :
    getChatConversation [] "s_1" = .error ⟨404, "Chat not found"⟩
    ∧ (404 : Nat) ≠ 500
    ∧ queryDocuments "session_1" (fun _ _ => .error (.notFound "missing")) "q" none =
        .error ⟨500, "missing"⟩ :=
  ⟨(error_propagation_amended [] "s_1" (by decide)).1,
   (error_propagation_amended [] "s_1" (by decide)).2.1,
   (error_propagation_amended [] "s_1" (by decide)).2.2 "session_1" "q"
     (.notFound "missing") (fun _ _ => .error (.notFound "missing")) rfl⟩

/-- C5: when the generation backend fails during answer synthesis, no messages
are appended: every session's message count after the failed call equals its
count before the call. -/
theorem generation_failure_no_append
    (generate : List Message → List (String × String) → String → Except String String)
    (retrieve : String → List (String × String))
    (historyOf : Sessions → String → List Message)
    (sessions : Sessions) (query sid : String) (e : String)
    (hfail : (answerSynthesize generate retrieve historyOf sessions query sid).1 = .error e) :
    ∀ sid', messageCount (answerSynthesize generate retrieve historyOf sessions query sid).2 sid'
      = messageCount sessions sid' := by
  intro sid'
  simp only [answerSynthesize] at hfail ⊢
  cases hgen : generate (historyOf sessions sid) (retrieve query) query with
  | ok text =>
    rw [hgen] at hfail
    simp at hfail
  | error e2 => rfl

/-- Witness for `generation_failure_no_append`: a failing generation backend on
a one-session store leaves the session's count at 1. -/
theorem generation_failure_no_append_witness :
    messageCount
      (answerSynthesize (fun _ _ _ => .error "backend down") (fun _ => [])
        (fun s sid => (dictGet s sid).getD []) [("session_1", [⟨"user", "hi"⟩])]
        "q" "session_1").2 "session_1"
      = messageCount [("session_1", [⟨"user", "hi"⟩])] "session_1" :=
  generation_failure_no_append (fun _ _ _ => .error "backend down") (fun _ => [])
    (fun s sid => (dictGet s sid).getD []) [("session_1", [⟨"user", "hi"⟩])]
    "q" "session_1" "backend down" rfl "session_1"

/-- C8: whatever the startup document-loading step does — including the
ingestion call raising — the startup handler returns normally; a loader
failure is only printed as an error line and never propagates. -/
theorem startup_failure_logged (docsPathExists : Bool)
    (addCourseFolder : Unit → Except String (Nat × Nat)) :
    (∃ logs, startupEvent docsPathExists addCourseFolder = .ok logs)
    ∧ (∀ e, docsPathExists = true → addCourseFolder () = .error e →
        startupEvent docsPathExists addCourseFolder =
          .ok ["Loading initial documents...", "Error loading documents: " ++ e]) := by
  constructor
  · unfold startupEvent
    cases docsPathExists with
    | false => exact ⟨[], rfl⟩
    | true =>
      cases h : addCourseFolder () with
      | ok p =>
        obtain ⟨c, ch⟩ := p
        exact ⟨_, rfl⟩
      | error e =>
        exact ⟨_, rfl⟩
  · intro e hdocs herr
    subst hdocs
    unfold startupEvent
    rw [herr]
    rfl

/-- Witness for `startup_failure_logged`: a raising loader produces a normal
return carrying the printed error line. -/
theorem startup_failure_logged_witness :
    (∃ logs, startupEvent true (fun _ => .error "disk error") = .ok logs)
    ∧ startupEvent true (fun _ => .error "disk error") =
        .ok ["Loading initial documents...", "Error loading documents: disk error"] :=
  ⟨(startup_failure_logged true (fun _ => .error "disk error")).1,
   (startup_failure_logged true (fun _ => .error "disk error")).2 "disk error" rfl rfl⟩

theorem mapM_key_mem {ids : List String} {keyed : List (Int × String)}
    (h : ids.mapM (fun sid => (sessionKey sid).map (fun k => (k, sid))) = some keyed) :
    ∀ p ∈ keyed, sessionKey p.2 = some p.1 ∧ p.2 ∈ ids := by
  induction ids generalizing keyed with
  | nil =>
    rw [List.mapM_nil] at h
    cases h
    intro p hp
    cases hp
  | cons a as ih =>
    rw [List.mapM_cons] at h
    simp only [Option.pure_def, Option.bind_eq_bind, Option.bind_eq_some, Option.map_eq_some'] at h
    obtain ⟨x, ⟨k, hk, hx⟩, xs, hxs, hcons⟩ := h
    cases hcons
    intro p hp
    rcases List.mem_cons.mp hp with hpx | hpxs
    · cases hpx
      cases hx.symm
      exact ⟨hk, List.mem_cons_self a as⟩
    · obtain ⟨hkey, hmem⟩ := ih hxs p hpxs
      exact ⟨hkey, List.mem_cons_of_mem a hmem⟩

theorem mapM_key_forall {ids : List String} {keyed : List (Int × String)}
    (h : ids.mapM (fun sid => (sessionKey sid).map (fun k => (k, sid))) = some keyed) :
    ∀ sid ∈ ids, ∃ k, sessionKey sid = some k ∧ (k, sid) ∈ keyed := by
  induction ids generalizing keyed with
  | nil =>
    intro sid hsid
    cases hsid
  | cons a as ih =>
    rw [List.mapM_cons] at h
    simp only [Option.pure_def, Option.bind_eq_bind, Option.bind_eq_some, Option.map_eq_some'] at h
    obtain ⟨x, ⟨k, hk, hx⟩, xs, hxs, hcons⟩ := h
    cases hcons
    intro sid hsid
    rcases List.mem_cons.mp hsid with hsa | hsas
    · cases hsa
      exact ⟨k, hk, by rw [← hx]; exact List.mem_cons_self _ _⟩
    · obtain ⟨k', hk', hmem⟩ := ih hxs sid hsas
      exact ⟨k', hk', List.mem_cons_of_mem x hmem⟩

theorem sortedSessionIds_pairwise {ids : List String} {sorted : List String}
    (h : sortedSessionIds ids = some sorted) : sorted.Pairwise sidKeyGE := by
  unfold sortedSessionIds at h
  cases hm : ids.mapM (fun sid => (sessionKey sid).map (fun k => (k, sid))) with
  | none => rw [hm] at h; cases h
  | some keyed =>
    rw [hm, Option.map_some'] at h
    cases h
    have hsorted : (keyed.insertionSort keyGE).Pairwise keyGE :=
      List.sorted_insertionSort keyGE keyed
    refine List.pairwise_map.mpr (hsorted.imp_of_mem ?_)
    intro p q hp hq hpq ka kb hka hkb
    have hp' : p ∈ keyed := (List.mem_insertionSort keyGE).mp hp
    have hq' : q ∈ keyed := (List.mem_insertionSort keyGE).mp hq
    have h1 : sessionKey p.2 = some p.1 := (mapM_key_mem hm p hp').1
    have h2 : sessionKey q.2 = some q.1 := (mapM_key_mem hm q hq').1
    have e1 : p.1 = ka := Option.some.inj (h1.symm.trans hka)
    have e2 : q.1 = kb := Option.some.inj (h2.symm.trans hkb)
    rw [← e1, ← e2]
    exact hpq

theorem mem_sortedSessionIds {ids : List String} {sorted : List String}
    (h : sortedSessionIds ids = some sorted) :
    ∀ sid, sid ∈ sorted ↔ sid ∈ ids := by
  unfold sortedSessionIds at h
  cases hm : ids.mapM (fun sid => (sessionKey sid).map (fun k => (k, sid))) with
  | none => rw [hm] at h; cases h
  | some keyed =>
    rw [hm, Option.map_some'] at h
    cases h
    intro sid
    rw [List.mem_map]
    constructor
    · rintro ⟨p, hp, rfl⟩
      exact (mapM_key_mem hm p ((List.mem_insertionSort keyGE).mp hp)).2
    · intro hsid
      obtain ⟨k, _, hmem⟩ := mapM_key_forall hm sid hsid
      exact ⟨(k, sid), (List.mem_insertionSort keyGE).mpr hmem, rfl⟩

theorem getChatHistory_ok_iff {sessions : Sessions} {chats : List ChatHistoryItem} :
    getChatHistory sessions = .ok chats ↔
    ∃ sorted, sortedSessionIds (sessionIds sessions) = some sorted ∧
      chats = (sorted.take 10).filterMap
        (fun sid => summarizeSession sid ((dictGet sessions sid).getD [])) := by
  unfold getChatHistory
  cases hs : sortedSessionIds (sessionIds sessions) with
  | none =>
    constructor
    · intro h; cases h
    · rintro ⟨sorted, hsorted, _⟩; cases hsorted
  | some sorted =>
    constructor
    · intro h
      cases h
      exact ⟨sorted, rfl, rfl⟩
    · rintro ⟨sorted', hsorted', rfl⟩
      cases hsorted'
      rfl

theorem summarizeSession_eq_some_iff {sid : String} {messages : List Message}
    {item : ChatHistoryItem} :
    summarizeSession sid messages = some item ↔
    ∃ m, messages ≠ [] ∧ messages.find? (fun msg => msg.role == "user") = some m ∧
      m.content ≠ "" ∧
      item = ⟨sid, if m.content.length > 50 then pySlice m.content 50 ++ "..."
                   else pySlice m.content 50, messages.length⟩ := by
  unfold summarizeSession
  cases hemp : messages.isEmpty with
  | true =>
    rw [if_pos rfl]
    constructor
    · intro h; cases h
    · rintro ⟨m, hne, _, _, _⟩
      exact absurd (List.isEmpty_iff.mp hemp) hne
  | false =>
    rw [if_neg (by simp)]
    cases hfind : messages.find? (fun msg => msg.role == "user") with
    | none =>
      simp only [Option.map_none']
      constructor
      · intro h; cases h
      · rintro ⟨m, _, hfind', _, _⟩
        cases hfind'
    | some m =>
      simp only [Option.map_some']
      cases hc : m.content.data.isEmpty with
      | true =>
        rw [if_pos rfl]
        constructor
        · intro h; cases h
        · rintro ⟨m', _, hfind', hne, _⟩
          cases hfind'
          exact absurd ((data_isEmpty_iff m.content).mp hc) hne
      | false =>
        rw [if_neg (by simp)]
        constructor
        · intro h
          cases h
          refine ⟨m, fun hnil => ?_, rfl, fun he => ?_, rfl⟩
          · rw [hnil] at hemp; cases hemp
          · rw [he] at hc; cases hc
        · rintro ⟨m', _, hfind', _, hitem⟩
          cases hfind'
          rw [hitem]

theorem summarizeSession_session_id {sid : String} {messages : List Message}
    {item : ChatHistoryItem} (h : summarizeSession sid messages = some item) :
    item.session_id = sid := by
  obtain ⟨m, _, _, _, hitem⟩ := summarizeSession_eq_some_iff.mp h
  rw [hitem]

theorem pySlice_of_length_le (s : String) (n : Nat) (h : s.length ≤ n) :
    pySlice s n = s := by
  unfold pySlice
  cases s with
  | mk d =>
    have hd : d.length ≤ n := h
    rw [List.take_of_length_le hd]

theorem pySlice_length (s : String) (n : Nat) (h : n ≤ s.length) :
    (pySlice s n).length = n := by
  unfold pySlice
  cases s with
  | mk d =>
    show (d.take n).length = n
    rw [List.length_take]
    exact Nat.min_eq_left h

theorem sessionIds_setMessages (sessions : Sessions) (sid : String)
    (msgs' : List Message) :
    sessionIds (setMessages sessions sid msgs') = sessionIds sessions := by
  unfold setMessages sessionIds
  rw [List.map_map]
  apply List.map_congr_left
  intro p _
  by_cases h : p.1 == sid
  · simp only [Function.comp_apply, if_pos h]
  · simp only [Function.comp_apply, if_neg h]

/-- C1 counterexample: the store `windowStore` has exactly one non-empty
session, `s_1` (so `s_1` is trivially among the 10 most-recent non-empty
sessions), yet the chat-history listing is empty, because the 10-slot window
is taken over all sessions — here the ten empty sessions with larger numeric
suffixes — before empty sessions are filtered out.  Two further single-session
stores show the other gap: a non-empty session whose messages carry no user
role, or whose first user message is the empty string, is also absent from the
listing. -/
theorem chat_history_window_counterexample :
    (getChatHistory windowStore = .ok []
      ∧ dictGet windowStore "s_1" = some [⟨"user", "hello"⟩]
      ∧ (∀ p ∈ windowStore, p.2 ≠ [] → p.1 = "s_1"))
    ∧ getChatHistory [("s_1", [⟨"assistant", "a"⟩])] = .ok []
    ∧ getChatHistory [("s_1", [⟨"user", ""⟩])] = .ok [] := by decide

/-- C1 (amended): `GET /api/chat-history` draws its 10-slot recency window
from all sessions, empty ones included; every session in that window that is
non-empty and whose first user message has non-empty content appears in the
listing, summarized as session id, truncated title and message count; the
listing never exceeds 10 items; and no session with zero messages ever
appears. -/
theorem chat_history_listing (sessions : Sessions) (sorted : List String)
    (hsort : sortedSessionIds (sessionIds sessions) = some sorted) :
    (∀ sid msgs m, sid ∈ sorted.take 10 → dictGet sessions sid = some msgs →
       msgs.find? (fun msg => msg.role == "user") = some m → m.content ≠ "" →
       ∃ chats, getChatHistory sessions = .ok chats ∧
         (⟨sid, if m.content.length > 50 then pySlice m.content 50 ++ "..."
                else pySlice m.content 50, msgs.length⟩ : ChatHistoryItem) ∈ chats)
    ∧ (∀ chats, getChatHistory sessions = .ok chats → chats.length ≤ 10)
    ∧ (∀ chats, getChatHistory sessions = .ok chats →
        ∀ item ∈ chats, ∃ msgs, dictGet sessions item.session_id = some msgs ∧
          msgs ≠ [] ∧ item.message_count = msgs.length) := by
  refine ⟨?_, ?_, ?_⟩
  · intro sid msgs m htake hget hfind hne
    refine ⟨_, getChatHistory_ok_iff.mpr ⟨sorted, hsort, rfl⟩, ?_⟩
    apply List.mem_filterMap.mpr
    refine ⟨sid, htake, ?_⟩
    rw [hget]
    apply summarizeSession_eq_some_iff.mpr
    exact ⟨m, List.ne_nil_of_mem (List.mem_of_find?_eq_some hfind), hfind, hne, rfl⟩
  · intro chats h
    obtain ⟨sorted', hsort', rfl⟩ := getChatHistory_ok_iff.mp h
    exact le_trans (List.length_filterMap_le _ _) (List.length_take_le 10 sorted')
  · intro chats h item hmem
    obtain ⟨sorted', hsort', rfl⟩ := getChatHistory_ok_iff.mp h
    obtain ⟨sid, htake, hf⟩ := List.mem_filterMap.mp hmem
    have hsid : sid ∈ sessionIds sessions :=
      (mem_sortedSessionIds hsort' sid).mp (List.mem_of_mem_take htake)
    have hiss : (dictGet sessions sid).isSome = true := dictGet_isSome_iff.mpr hsid
    obtain ⟨msgs, hget⟩ := Option.isSome_iff_exists.mp hiss
    rw [hget] at hf
    obtain ⟨m, hne, _, _, hitem⟩ := summarizeSession_eq_some_iff.mp hf
    refine ⟨msgs, ?_, hne, ?_⟩
    · rw [hitem]; exact hget
    · rw [hitem]
      rfl

/-- Witness for `chat_history_listing`: a two-session store; the non-empty
session `s_2` in the window is listed with its title and count. -/
theorem chat_history_listing_witness :
    ∃ chats, getChatHistory [("s_2", [⟨"user", "hi"⟩]), ("s_1", [])] = .ok chats ∧
      (⟨"s_2", if ("hi" : String).length > 50 then pySlice "hi" 50 ++ "..."
               else pySlice "hi" 50, 1⟩ : ChatHistoryItem) ∈ chats :=
  (chat_history_listing [("s_2", [⟨"user", "hi"⟩]), ("s_1", [])] ["s_2", "s_1"]
      (by decide)).1
    "s_2" [⟨"user", "hi"⟩] ⟨"user", "hi"⟩ (by decide) (by decide) (by decide) (by decide)

/-- C2: every listed session's title is the session's first user message when
that message has at most 50 characters, and otherwise its 50-character prefix
followed by the ellipsis marker. -/
theorem chat_history_title (sessions : Sessions) (chats : List ChatHistoryItem)
    (h : getChatHistory sessions = .ok chats) (item : ChatHistoryItem)
    (hmem : item ∈ chats) :
    ∃ msgs m, dictGet sessions item.session_id = some msgs ∧
      msgs.find? (fun msg => msg.role == "user") = some m ∧
      (m.content.length ≤ 50 → item.title = m.content) ∧
      (50 < m.content.length →
        item.title = pySlice m.content 50 ++ "..." ∧
        (pySlice m.content 50).length = 50) := by
  obtain ⟨sorted, hsort, rfl⟩ := getChatHistory_ok_iff.mp h
  obtain ⟨sid, htake, hf⟩ := List.mem_filterMap.mp hmem
  have hsid : sid ∈ sessionIds sessions :=
    (mem_sortedSessionIds hsort sid).mp (List.mem_of_mem_take htake)
  obtain ⟨msgs, hget⟩ := Option.isSome_iff_exists.mp (dictGet_isSome_iff.mpr hsid)
  rw [hget] at hf
  obtain ⟨m, hne, hfind, hnemp, hitem⟩ := summarizeSession_eq_some_iff.mp hf
  have hsid_eq : item.session_id = sid := by rw [hitem]
  refine ⟨msgs, m, by rw [hsid_eq]; exact hget, hfind, ?_, ?_⟩
  · intro hle
    rw [hitem]
    show (if m.content.length > 50 then pySlice m.content 50 ++ "..."
          else pySlice m.content 50) = m.content
    rw [if_neg (by omega), pySlice_of_length_le m.content 50 hle]
  · intro hgt
    rw [hitem]
    constructor
    · show (if m.content.length > 50 then pySlice m.content 50 ++ "..."
            else pySlice m.content 50) = pySlice m.content 50 ++ "..."
      rw [if_pos hgt]
    · exact pySlice_length m.content 50 (le_of_lt hgt)

/-- Witness for `chat_history_title`: the spec's truncation scenario — a
53-character first user message is listed with a 50-character prefix plus
ellipsis. -/
theorem chat_history_title_witness :
    ∃ msgs m,
      dictGet [("s_1", [⟨"user", "aaaaaaaaaaaaaaaaaaaaaaaaaaaaaaaaaaaaaaaaaaaaaaaaaaaaa"⟩])]
          (ChatHistoryItem.session_id
            ⟨"s_1", "aaaaaaaaaaaaaaaaaaaaaaaaaaaaaaaaaaaaaaaaaaaaaaaaaa" ++ "...", 1⟩) =
        some msgs ∧
      msgs.find? (fun msg => msg.role == "user") = some m ∧
      (m.content.length ≤ 50 →
        ChatHistoryItem.title
            ⟨"s_1", "aaaaaaaaaaaaaaaaaaaaaaaaaaaaaaaaaaaaaaaaaaaaaaaaaa" ++ "...", 1⟩ =
          m.content) ∧
      (50 < m.content.length →
        ChatHistoryItem.title
            ⟨"s_1", "aaaaaaaaaaaaaaaaaaaaaaaaaaaaaaaaaaaaaaaaaaaaaaaaaa" ++ "...", 1⟩ =
          pySlice m.content 50 ++ "..." ∧
        (pySlice m.content 50).length = 50) :=
  chat_history_title
    [("s_1", [⟨"user", "aaaaaaaaaaaaaaaaaaaaaaaaaaaaaaaaaaaaaaaaaaaaaaaaaaaaa"⟩])]
    [⟨"s_1", "aaaaaaaaaaaaaaaaaaaaaaaaaaaaaaaaaaaaaaaaaaaaaaaaaa" ++ "...", 1⟩]
    (by decide)
    ⟨"s_1", "aaaaaaaaaaaaaaaaaaaaaaaaaaaaaaaaaaaaaaaaaaaaaaaaaa" ++ "...", 1⟩
    (by decide)

/-- C7: the chat-history listing is ordered by the numeric suffix of the
session identifier, descending: a listed session with a larger integer after
the first underscore appears strictly before one with a smaller integer. -/
theorem chat_history_recency_order (sessions : Sessions) (chats : List ChatHistoryItem)
    (h : getChatHistory sessions = .ok chats)
    (i j : Nat) (hi : i < chats.length) (hj : j < chats.length)
    (ki kj : Int)
    (hki : sessionKey (chats[i].session_id) = some ki)
    (hkj : sessionKey (chats[j].session_id) = some kj)
    (hgt : kj < ki) : i < j := by
  obtain ⟨sorted, hsort, heq⟩ := getChatHistory_ok_iff.mp h
  have hpair : chats.Pairwise (fun a b => sidKeyGE a.session_id b.session_id) := by
    rw [heq, List.pairwise_filterMap]
    refine ((sortedSessionIds_pairwise hsort).sublist
      (List.take_sublist 10 sorted)).imp ?_
    intro a a' hge b hb b' hb'
    rw [summarizeSession_session_id hb, summarizeSession_session_id hb']
    exact hge
  rw [List.pairwise_iff_getElem] at hpair
  rcases Nat.lt_trichotomy i j with hij | hij | hij
  · exact hij
  · subst hij
    rw [hki] at hkj
    cases hkj
    exact absurd hgt (lt_irrefl ki)
  · have := hpair j i hj hi hij kj ki hkj hki
    exact absurd (lt_of_lt_of_le hgt this) (lt_irrefl kj)

/-- Witness for `chat_history_recency_order`: a two-session store, the session
with suffix 2 is listed at position 0, before suffix 1 at position 1. -/
theorem chat_history_recency_order_witness : (0 : Nat) < 1 :=
  chat_history_recency_order [("s_1", [⟨"user", "a"⟩]), ("s_2", [⟨"user", "b"⟩])]
    [⟨"s_2", "b", 1⟩, ⟨"s_1", "a", 1⟩] (by decide) 0 1 (by decide) (by decide)
    2 1 (by decide) (by decide) (by decide)

/-- C10: a non-empty session containing no message with role `"user"` is
omitted from the chat-history listing, yet it still occupies its place in the
recency ordering that the 10-slot window is taken from: it appears among the
sorted ids, and the sorted ids — hence the window — are unchanged by any
replacement of any session's messages. -/
theorem no_user_session_excluded_but_windowed (sessions : Sessions) (sid : String)
    (msgs : List Message) (hget : dictGet sessions sid = some msgs) (hne : msgs ≠ [])
    (hnouser : ∀ m ∈ msgs, m.role ≠ "user") :
    (∀ chats, getChatHistory sessions = .ok chats →
      ∀ item ∈ chats, item.session_id ≠ sid)
    ∧ (∀ sorted, sortedSessionIds (sessionIds sessions) = some sorted → sid ∈ sorted)
    ∧ (∀ sid' msgs', sortedSessionIds (sessionIds (setMessages sessions sid' msgs')) =
        sortedSessionIds (sessionIds sessions)) := by
  refine ⟨?_, ?_, ?_⟩
  · intro chats h item hmem heq
    obtain ⟨sorted, hsort, rfl⟩ := getChatHistory_ok_iff.mp h
    obtain ⟨sid', htake, hf⟩ := List.mem_filterMap.mp hmem
    have : item.session_id = sid' := summarizeSession_session_id hf
    rw [heq] at this
    subst this
    rw [hget] at hf
    obtain ⟨m, _, hfind, _, _⟩ := summarizeSession_eq_some_iff.mp hf
    have hmemm : m ∈ msgs := List.mem_of_find?_eq_some hfind
    have hrole := List.find?_some hfind
    exact hnouser m hmemm (by simpa using hrole)
  · intro sorted hsort
    apply (mem_sortedSessionIds hsort sid).mpr
    apply dictGet_isSome_iff.mp
    rw [hget]
    rfl
  · intro sid' msgs'
    rw [sessionIds_setMessages]

/-- Witness for `no_user_session_excluded_but_windowed`: a store whose only
session holds one assistant message; it is excluded from the listing but
present in the sorted window ids. -/
theorem no_user_session_excluded_but_windowed_witness :
    (∀ chats, getChatHistory [("s_1", [⟨"assistant", "yo"⟩])] = .ok chats →
      ∀ item ∈ chats, item.session_id ≠ "s_1")
    ∧ (∀ sorted, sortedSessionIds (sessionIds [("s_1", [⟨"assistant", "yo"⟩])]) =
        some sorted → "s_1" ∈ sorted)
    ∧ (∀ sid' msgs',
        sortedSessionIds (sessionIds (setMessages [("s_1", [⟨"assistant", "yo"⟩])] sid' msgs')) =
        sortedSessionIds (sessionIds [("s_1", [⟨"assistant", "yo"⟩])])) :=
  no_user_session_excluded_but_windowed [("s_1", [⟨"assistant", "yo"⟩])] "s_1"
    [⟨"assistant", "yo"⟩] (by decide) (by decide) (by decide)

end RagChat
